import Mathlib

/-!
Verification development for the YellowTok service (src/services/YellowTokService.js).

Each section embeds one part of the service as executable Lean definitions,
translated from the JavaScript source, and proves or refutes the claims about
the corresponding behaviour.  Amounts handled by the remote ledger and the
session ledger are rational numbers (JavaScript numbers used for USDC values);
on-chain token quantities are natural numbers (uint256 base units).
-/

namespace YellowTok

/-!
RPC correlator (methods sendRPC and handleMessage of the service).
The pending-request map is a JavaScript Map from expected response kind to
a resolver record; JavaScript Maps iterate in insertion order, so the map is
embedded as an association list in insertion order with unique keys.
-/

/-- Resolver record stored in the pending-request map: the timer handle of the
RPC timeout.  The resolve and reject callbacks are represented by the
dispatch outcome below. -/
structure PendingReq where
  timer : Nat
  deriving Repr, DecidableEq

/-- The pending-request map in insertion order (oldest entry first). -/
abbrev PendingMap := List (String × PendingReq)

/-- Outcome of dispatching one inbound message. -/
inductive Dispatch where
  | resolvedPending (kind : String)
  | rejectedPending (kind : String) (reason : String)
  | standing
  deriving Repr, DecidableEq

/-- Result of the routing portion of handleMessage: the outcome, the map after
the dispatch, and the timer handles cleared by clearTimeout. -/
structure DispatchResult where
  outcome : Dispatch
  pendingAfter : PendingMap
  clearedTimers : List Nat
  deriving Repr, DecidableEq

/-- Kind discriminator carried by an inbound Error message. -/
def errorMethod : String := "error"

/-- Routing portion of handleMessage, translated from the source: an inbound
message whose method matches a pending entry resolves that entry; otherwise an
Error message with a non-empty pending map rejects the entry at the LAST
position of the entries array (entries[entries.length - 1]), clears its timer
and deletes it; every other message falls through to the standing handlers. -/
def handleMessage (method : String) (errReason : Option String)
    (pending : PendingMap) : DispatchResult :=
  if (pending.lookup method).isSome then
    { outcome := Dispatch.resolvedPending method
      pendingAfter := pending.filter (fun e => e.1 ≠ method)
      clearedTimers := ((pending.lookup method).map PendingReq.timer).toList }
  else if method = errorMethod then
    match pending.getLast? with
    | some last =>
        { outcome := Dispatch.rejectedPending last.1 (errReason.getD ("RPC error"))
          pendingAfter := pending.filter (fun e => e.1 ≠ last.1)
          clearedTimers := [last.2.timer] }
    | none =>
        { outcome := Dispatch.standing, pendingAfter := pending, clearedTimers := [] }
  else
    { outcome := Dispatch.standing, pendingAfter := pending, clearedTimers := [] }

/-!
Session ledger (methods createStreamSession and sendTip of the service).
-/

/-- Local stream-session record created by createStreamSession. -/
structure StreamSession where
  streamerAddress : String
  initialDeposit : ℚ
  currentBalance : ℚ
  spent : ℚ
  commissionRate : ℚ
  isActive : Bool
  deriving Repr, DecidableEq

/-- The service state consulted by sendTip. -/
structure TipState where
  activeStreamSession : Option StreamSession
  hasSessionSigner : Bool
  connected : Bool
  authenticated : Bool
  deriving Repr, DecidableEq

/-- Off-chain transfer message sent over the connection by sendTip. -/
structure TransferMsg where
  destination : String
  amount : ℚ
  deriving Repr, DecidableEq

/-- Result returned (or thrown) by sendTip. -/
inductive TipOutcome where
  | ok (remainingBalance totalSpent : ℚ)
  | rejected (reason : String)
  deriving Repr, DecidableEq

/-- One invocation of sendTip: the requested amount, the target streamer, and
whether building or sending the transfer message throws. -/
structure TipCall where
  amount : ℚ
  streamer : String
  sendFails : Bool
  deriving Repr, DecidableEq

/-- Session record produced by createStreamSession: spent starts at zero and
the current balance starts at the deposited budget. -/
def createStreamSession (streamer : String) (depositAmount : ℚ)
    (commissionRate : ℚ) : StreamSession :=
  { streamerAddress := streamer
    initialDeposit := depositAmount
    currentBalance := depositAmount
    spent := 0
    commissionRate := commissionRate
    isActive := true }

/-- sendTip, translated from the source.  Checks run in source order: no
active session, streamer mismatch, non-positive amount, amount above the
current balance.  When all checks pass the transfer message is sent (unless
the signer is absent, the connection is down, or the send throws — the throw
is caught and swallowed), then the ledger is updated optimistically and the
call returns success. -/
def sendTip (st : TipState) (c : TipCall) :
    TipOutcome × TipState × List TransferMsg :=
  match st.activeStreamSession with
  | none => (TipOutcome.rejected ("No active stream session"), st, [])
  | some s =>
    if s.streamerAddress ≠ c.streamer then
      (TipOutcome.rejected ("Active session is with a different streamer"), st, [])
    else if c.amount ≤ 0 then
      (TipOutcome.rejected ("Tip amount must be greater than 0"), st, [])
    else if s.currentBalance < c.amount then
      (TipOutcome.rejected ("Insufficient balance"), st, [])
    else
      let msgs : List TransferMsg :=
        if st.hasSessionSigner && st.connected && st.authenticated then
          if c.sendFails then [] else [⟨c.streamer, c.amount⟩]
        else []
      let s2 := { s with
        spent := s.spent + c.amount
        currentBalance := s.currentBalance - c.amount }
      (TipOutcome.ok s2.currentBalance s2.spent,
       { st with activeStreamSession := some s2 }, msgs)

/-- Run a sequence of sendTip calls, threading the state. -/
def runTips (st : TipState) : List TipCall → TipState
  | [] => st
  | c :: cs => runTips (sendTip st c).2.1 cs

/-- Spent amount recorded in the active session (0 when none). -/
def spentOf (st : TipState) : ℚ :=
  ((st.activeStreamSession.map StreamSession.spent).getD 0)

/-- Remaining balance recorded in the active session (0 when none). -/
def remainingOf (st : TipState) : ℚ :=
  ((st.activeStreamSession.map StreamSession.currentBalance).getD 0)

/-- Ledger invariant tying a tip state to the opening budget. -/
def LedgerInv (B : ℚ) (st : TipState) : Prop :=
  ∃ s, st.activeStreamSession = some s ∧ s.initialDeposit = B ∧
    0 ≤ s.spent ∧ 0 ≤ s.currentBalance ∧ s.spent + s.currentBalance = B

/-!
Connection manager reconnection (method attemptReconnect of the service).
Each close of the connection invokes attemptReconnect; a failed reconnect
closes again, invoking it anew.
-/

/-- Reconnection counters of the service. -/
structure ReconnState where
  reconnectAttempts : ℕ
  maxReconnectAttempts : ℕ
  deriving Repr, DecidableEq

/-- Observable effect of one attemptReconnect call: either a reconnect is
scheduled (attempt number and delay in milliseconds) or the terminal
max-reconnect-attempts error event is emitted. -/
inductive ReconnAction where
  | schedule (attempt delay : ℕ)
  | terminalError
  deriving Repr, DecidableEq

/-- attemptReconnect, translated from the source: below the maximum the
counter is incremented first and the delay is min(1000 * 2 ^ counter, 30000);
at the maximum a terminal error event is emitted and nothing is scheduled. -/
def attemptReconnect (st : ReconnState) : ReconnAction × ReconnState :=
  if st.reconnectAttempts < st.maxReconnectAttempts then
    let attempt := st.reconnectAttempts + 1
    (ReconnAction.schedule attempt (min (1000 * 2 ^ attempt) 30000),
     { st with reconnectAttempts := attempt })
  else
    (ReconnAction.terminalError, st)

/-- Reconnection state right after a fresh connection (counter reset to 0,
maximum 5 as configured in the constructor). -/
def initialReconnState : ReconnState := ⟨0, 5⟩

/-- Actions produced by n consecutive attemptReconnect invocations (each
earlier attempt having failed and closed the connection again). -/
def reconnTrace (st : ReconnState) : ℕ → List ReconnAction
  | 0 => []
  | n + 1 =>
    let r := attemptReconnect st
    r.1 :: reconnTrace r.2 n

/-- State after n consecutive attemptReconnect invocations. -/
def reconnRun (st : ReconnState) : ℕ → ReconnState
  | 0 => st
  | n + 1 => reconnRun (attemptReconnect st).2 n

/-- Delays of the scheduled reconnects in a list of actions. -/
def scheduledDelays (tr : List ReconnAction) : List ℕ :=
  tr.filterMap (fun a =>
    match a with
    | ReconnAction.schedule _ d => some d
    | ReconnAction.terminalError => none)

/-- Predicate picking out the schedule actions. -/
def isSchedule : ReconnAction → Bool
  | ReconnAction.schedule _ _ => true
  | ReconnAction.terminalError => false

/-!
Authenticator handshake (method authenticateWithNitrolite of the service).
The handshake registers a temporary message listener and a temporary close
listener on the connection and arms a 30 s timeout; the cleanup helper clears
the timer and removes both listeners.  The machine below records which
handlers are still registered and whether (and how) the handshake promise has
settled.
-/

/-- Registration state of the handshake plus the settlement of its promise:
none while running, some (Except.ok ()) on success, some (Except.error r) on
rejection with reason r. -/
structure AuthMachine where
  timerActive : Bool
  msgListener : Bool
  closeListener : Bool
  settled : Option (Except String Unit)
  deriving Repr

/-- The cleanup helper of the handshake: clearTimeout plus removal of both
temporary listeners. -/
def authCleanup (st : AuthMachine) : AuthMachine :=
  { st with timerActive := false, msgListener := false, closeListener := false }

/-- Settle the handshake promise; a promise settles at most once, so a later
settlement attempt keeps the first result. -/
def authSettle (st : AuthMachine) (r : Except String Unit) : AuthMachine :=
  { st with settled := some (st.settled.getD r) }

/-- External events that can reach the handshake handlers. -/
inductive AuthEvent where
  | timeout
  | connClosed
  | challenge (signOk : Bool)
  | verifyResult (success : Bool)
  | errorResponse (reason : Option String)
  deriving Repr, DecidableEq

/-- Handshake start, translated from the source: the timer is armed, the
close listener and the message listener are registered, then the auth request
is sent; if building or sending it throws, cleanup runs and the promise is
rejected. -/
def authStart (sendOk : Bool) : AuthMachine :=
  let st : AuthMachine := ⟨true, true, true, none⟩
  if sendOk then st
  else authSettle (authCleanup st) (Except.error ("auth request send failed"))

/-- One event step of the handshake, translated from the source handlers.
A deregistered listener (or a cleared timer) receives nothing.  The message
handler signs and sends the verify on a challenge (cleanup and rejection if
the signer throws), resolves on a verify response unless its success field is
explicitly false (in which case it does nothing), and rejects on an error
response; the close handler and the timer reject.  Every settlement is
preceded by cleanup. -/
def authStep (st : AuthMachine) (e : AuthEvent) : AuthMachine :=
  match e with
  | AuthEvent.timeout =>
    if st.timerActive then
      authSettle (authCleanup st) (Except.error ("Authentication timed out (30s)"))
    else st
  | AuthEvent.connClosed =>
    if st.closeListener then
      authSettle (authCleanup st) (Except.error ("Connection lost during authentication"))
    else st
  | AuthEvent.challenge signOk =>
    if st.msgListener then
      if signOk then st
      else authSettle (authCleanup st) (Except.error ("User rejected signature or signing failed"))
    else st
  | AuthEvent.verifyResult success =>
    if st.msgListener then
      if success then authSettle (authCleanup st) (Except.ok ())
      else st
    else st
  | AuthEvent.errorResponse reason =>
    if st.msgListener then
      authSettle (authCleanup st) (Except.error (reason.getD ("Authentication failed")))
    else st

/-- Run the handshake machine over a sequence of events. -/
def authRun (st : AuthMachine) : List AuthEvent → AuthMachine
  | [] => st
  | e :: es => authRun (authStep st e) es

/-!
Channel lifecycle flows (methods depositAndOpenChannel,
closeChannelAndWithdraw, deepCleanup, closeStaleChannel of the service).
These flows interleave on-chain submissions, chain reads, connection
messages and progress events; the embedding records that externally
observable activity as an event log.  Fallible external calls are driven by
an environment of oracle results; an oracle reporting failure means the call
threw before any transaction reached the chain (wallet rejection or RPC
failure), matching how the source observes those calls.
-/

/-- On-chain transactions the service can submit. -/
inductive Tx where
  | approve (token spender : String) (amount : ℕ)
  | depositTx (token : String) (amount : ℕ)
  | createChannelTx
  | resizeChannelTx (channelId : String)
  | closeChannelTx (channelId : String)
  | withdraw (token : String) (amount : ℕ)
  deriving Repr, DecidableEq

/-- Externally observable activity of the flows. -/
inductive Event where
  | readAllowance (token owner spender : String)
  | readCustodyBalance (token : String)
  | readChannelData (channelId : String)
  | submitTx (tx : Tx)
  | awaitReceipt
  | wsSend (kind : String)
  | progress (channel : String) (step total : ℕ) (complete : Bool)
  | waitFor (what : String)
  | emitError (etype : String)
  deriving Repr, DecidableEq

/-- One supported network from the fetched ClearNode configuration. -/
structure Network where
  chainId : ℕ
  custodyAddress : String
  adjudicatorAddress : String
  deriving Repr, DecidableEq

/-- Service fields consulted and mutated by the channel lifecycle flows. -/
structure ServiceState where
  connected : Bool
  authenticated : Bool
  hasPublicClient : Bool
  userAddress : String
  networks : List Network
  brokerAddress : Option String
  channelId : Option String
  existingChannelId : Option String
  isDeposited : Bool
  hasNitroliteClient : Bool
  tokenAddress : Option String
  deriving Repr, DecidableEq

/-- findNetworkForChain, translated from the source. -/
def findNetworkForChain (st : ServiceState) (chainId : ℕ) : Option Network :=
  st.networks.find? (fun n => n.chainId = chainId)

/-!
closeChannelAndWithdraw (claims about its skip and withdrawal behaviour).
-/

/-- Oracle results for the external calls of closeChannelAndWithdraw. -/
structure CloseEnv where
  closeRpcOk : Bool
  closeTxOk : Bool
  closeTxHash : String
  custodyBalanceRead : Except String ℕ
  withdrawOk : Bool
  withdrawTxHash : String
  deriving Repr

/-- Withdrawal phase of closeChannelAndWithdraw (step 2 in the source): emit
the progress event, read the remaining custodial balance inside a swallowing
try block, withdraw it when it is nonzero, then clear the channel tracking,
emit the completion event and return the transaction hashes. -/
def closeWithdrawPhase (st : ServiceState) (env : CloseEnv) (totalSteps : ℕ)
    (closeTxHash : Option String) (pre : List Event) :
    Except String (Option (Option String × Option String)) × List Event × ServiceState :=
  let token := st.tokenAddress.getD ("")
  let ev := pre ++ [Event.progress ("withdraw") totalSteps totalSteps false,
                    Event.readCustodyBalance token]
  let (wHash, ev2) :=
    match env.custodyBalanceRead with
    | Except.error _ => ((none : Option String), ev)
    | Except.ok bal =>
      if 0 < bal then
        if env.withdrawOk then
          (some env.withdrawTxHash,
           ev ++ [Event.submitTx (Tx.withdraw token bal), Event.awaitReceipt])
        else (none, ev)
      else (none, ev)
  let st2 := { st with channelId := none, isDeposited := false }
  (Except.ok (some (closeTxHash, wHash)),
   ev2 ++ [Event.progress ("withdraw") totalSteps totalSteps true], st2)

/-- closeChannelAndWithdraw, translated from the source: without an on-chain
action client it logs and returns null immediately; otherwise it closes the
recorded channel (close request over the connection, then the on-chain close)
when one is recorded, and in every case runs the custody-withdrawal check.
A failure of the close request or the on-chain close is caught by the outer
handler, which emits a withdraw error event and rethrows. -/
def closeChannelAndWithdraw (st : ServiceState) (env : CloseEnv) :
    Except String (Option (Option String × Option String)) × List Event × ServiceState :=
  if !st.hasNitroliteClient then
    (Except.ok none, [], st)
  else
    let totalSteps : ℕ := if st.channelId.isSome then 2 else 1
    match st.channelId with
    | some ch =>
      let ev1 : List Event :=
        [Event.progress ("withdraw") 1 totalSteps false, Event.wsSend ("close_channel")]
      if !env.closeRpcOk then
        (Except.error ("close request failed"),
         ev1 ++ [Event.emitError ("withdraw_error")], st)
      else if !env.closeTxOk then
        (Except.error ("close transaction failed"),
         ev1 ++ [Event.emitError ("withdraw_error")], st)
      else
        closeWithdrawPhase st env totalSteps (some env.closeTxHash)
          (ev1 ++ [Event.submitTx (Tx.closeChannelTx ch)])
    | none =>
      closeWithdrawPhase st env totalSteps none []

/-!
deepCleanup (idempotence claim).
-/

/-- Oracle results for the external calls of deepCleanup.  Per-channel close
results are functions of the channel id. -/
structure CleanupEnv where
  closeRpcOk : String → Bool
  closeTxOk : String → Bool
  closeTxHash : String → String
  custodyBalance : Except String ℕ
  withdrawOk : Bool
  withdrawTxHash : String
  ledgerQueryOk : Bool

/-- Summary object returned by deepCleanup.  The drained amount is recorded
in base units; the ledgerBalance field is initialised to null in the source
and never assigned. -/
structure CleanupResult where
  channelsClosed : List (String × String)
  custodyDrained : Option (ℕ × Option String)
  ledgerBalance : Option ℕ
  errors : List String
  deriving Repr, DecidableEq

/-- Close of one channel inside deepCleanup: close request over the
connection, then the on-chain close; a failure is collected as an error and
does not stop the loop.  Returns the closed-channel entry or the error, plus
the events. -/
def cleanupCloseOne (env : CleanupEnv) (ch : String) :
    (Option (String × String) × Option String) × List Event :=
  if !env.closeRpcOk ch then
    ((none, some (("close ").append ch)), [Event.wsSend ("close_channel")])
  else if !env.closeTxOk ch then
    ((none, some (("close ").append ch)), [Event.wsSend ("close_channel")])
  else
    ((some (ch, env.closeTxHash ch), none),
     [Event.wsSend ("close_channel"), Event.submitTx (Tx.closeChannelTx ch)])

/-- Fold of cleanupCloseOne over the channels to close, accumulating the
closed entries, the collected errors and the events in order. -/
def cleanupCloseAll (env : CleanupEnv) :
    List String → List (String × String) × List String × List Event
  | [] => ([], [], [])
  | ch :: rest =>
    let r := cleanupCloseOne env ch
    let acc := cleanupCloseAll env rest
    ((r.1.1.toList ++ acc.1), (r.1.2.toList ++ acc.2.1), (r.2 ++ acc.2.2))

/-- deepCleanup, translated from the source: after the connection and client
guards and the network lookup, it builds the set of known channel ids (the
current one, then the one detected from a push update — a JavaScript Set
keeps the first occurrence), closes each one collecting failures, drains the
custodial balance when it is nonzero (recording a zero drain otherwise),
sends a ledger balance query, unconditionally resets the local channel and
deposit tracking, and returns the summary. -/
def deepCleanup (st : ServiceState) (env : CleanupEnv) (chainId : ℕ)
    (token : String) :
    Except String CleanupResult × List Event × ServiceState :=
  if !(st.connected && st.authenticated) then
    (Except.error ("Not connected/authenticated. Call initialize first."), [], st)
  else if !st.hasPublicClient then
    (Except.error ("Public client not available."), [], st)
  else
    match findNetworkForChain st chainId with
    | none => (Except.error ("Chain not supported"), [], st)
    | some _ =>
      let st1 := { st with tokenAddress := some token }
      let ev1 : List Event := [Event.progress ("cleanup") 1 4 false]
      let st2 := { st1 with hasNitroliteClient := true }
      let channelsToClose := (st2.channelId.toList ++ st2.existingChannelId.toList).dedup
      let ev2 := ev1 ++ [Event.progress ("cleanup") 2 4 false]
      let closed := cleanupCloseAll env channelsToClose
      let ev3 := ev2 ++ closed.2.2 ++ [Event.progress ("cleanup") 3 4 false,
                                       Event.readCustodyBalance token]
      let (drained, drainErrors, ev4) :=
        match env.custodyBalance with
        | Except.error e =>
          ((none : Option (ℕ × Option String)),
           [(("custody drain: ").append e)], ev3)
        | Except.ok bal =>
          if 0 < bal then
            if env.withdrawOk then
              (some (bal, some env.withdrawTxHash), [],
               ev3 ++ [Event.submitTx (Tx.withdraw token bal), Event.awaitReceipt])
            else (none, [("custody drain: withdrawal failed")], ev3)
          else (some (0, none), [], ev3)
      let ev5 := ev4 ++ [Event.progress ("cleanup") 4 4 false] ++
        (if env.ledgerQueryOk then [Event.wsSend ("get_ledger_balances")] else [])
      let st3 := { st2 with
        channelId := none
        existingChannelId := none
        isDeposited := false
        hasNitroliteClient := false }
      (Except.ok
        { channelsClosed := closed.1
          custodyDrained := drained
          ledgerBalance := none
          errors := closed.2.1 ++ drainErrors },
       ev5 ++ [Event.progress ("cleanup") 4 4 true], st3)

/-!
depositAndOpenChannel (chain-unsupported guard and approve stage).
-/

/-- Oracle results for the external calls of the deposit flow. -/
structure DepositEnv where
  staleCloseRpcOk : Bool
  staleCloseTxOk : Bool
  staleCustodyBalance : Except String ℕ
  staleWithdrawOk : Bool
  preDrainBalance : Except String ℕ
  preDrainWithdrawOk : Bool
  allowance : ℕ
  approveOk : Bool
  depositOk : Bool
  createRpcOk : Bool
  createTxOk : Bool
  newChannelId : String
  resizeRpcOk : Bool
  resizeDataOk : Bool
  resizeTxOk : Bool
  allocateRpcOk : Bool
  allocateDataOk : Bool
  allocateTxOk : Bool
  deriving Repr

/-- Error thrown by depositAndOpenChannel when the chain is absent from the
fetched ClearNode configuration. -/
def chainUnsupportedError : String := "Chain is not supported by ClearNode"

/-- closeStaleChannel, translated from the source: ensure an on-chain action
client exists, request the close over the connection, close on-chain, then
(inside a swallowing try block) withdraw any remaining custodial balance for
the tracked token, and finally discard the client so a fresh one is built. -/
def closeStaleChannel (st : ServiceState) (env : DepositEnv) (ch : String) :
    Except String Unit × List Event × ServiceState :=
  let st1 := if st.hasNitroliteClient then st else { st with hasNitroliteClient := true }
  let ev1 : List Event := [Event.wsSend ("close_channel")]
  if !env.staleCloseRpcOk then
    (Except.error ("close request failed"), ev1, st1)
  else if !env.staleCloseTxOk then
    (Except.error ("close transaction failed"), ev1, st1)
  else
    let ev2 := ev1 ++ [Event.submitTx (Tx.closeChannelTx ch)]
    let ev3 :=
      match st1.tokenAddress with
      | none => ev2
      | some tok =>
        match env.staleCustodyBalance with
        | Except.error _ => ev2 ++ [Event.readCustodyBalance tok]
        | Except.ok bal =>
          if 0 < bal then
            if env.staleWithdrawOk then
              ev2 ++ [Event.readCustodyBalance tok,
                      Event.submitTx (Tx.withdraw tok bal), Event.awaitReceipt]
            else ev2 ++ [Event.readCustodyBalance tok]
          else ev2 ++ [Event.readCustodyBalance tok]
    (Except.ok (), ev3, { st1 with hasNitroliteClient := false })

/-- Approve stage of the deposit flow (step 2 in the source): emit the
progress event, read the current token allowance granted to the custody
address, and if it is below the deposit amount submit an approve transaction
and await its confirmation; otherwise only log that the allowance suffices. -/
def approveStage (token owner custody : String) (allowance amountInUnits : ℕ)
    (approveOk : Bool) : Except String Unit × List Event :=
  let ev0 : List Event := [Event.progress ("deposit") 2 7 false,
                           Event.readAllowance token owner custody]
  if allowance < amountInUnits then
    if approveOk then
      (Except.ok (),
       ev0 ++ [Event.progress ("deposit") 2 7 false,
               Event.submitTx (Tx.approve token custody amountInUnits),
               Event.awaitReceipt])
    else
      (Except.error ("approve failed"),
       ev0 ++ [Event.progress ("deposit") 2 7 false])
  else
    (Except.ok (), ev0)

/-- depositAndOpenChannel, translated from the source.  Guards run first (in
source order: connection and authentication, public client, network lookup —
the chain-unsupported failure).  Then the pre-check closes any stale channel
(failures swallowed) and drains any leftover custodial balance (failures
swallowed), the client is built, and the seven stages run in order: approve,
deposit, create channel (recording the returned channel id and waiting for
the ready push), resize, allocate, and the final ledger confirmation wait.
Any stage failure aborts the flow with the events emitted so far. -/
def depositAndOpenChannel (st : ServiceState) (env : DepositEnv)
    (amountInUnits : ℕ) (chainId : ℕ) (token : String) :
    Except String String × List Event × ServiceState :=
  if !(st.connected && st.authenticated) then
    (Except.error ("Not connected/authenticated. Call initialize first."), [], st)
  else if !st.hasPublicClient then
    (Except.error ("Public client not available."), [], st)
  else
    match findNetworkForChain st chainId with
    | none => (Except.error chainUnsupportedError, [], st)
    | some nw =>
      let st1 := { st with tokenAddress := some token }
      let (ev0, st2) :=
        match st1.channelId.orElse (fun _ => st1.existingChannelId) with
        | some stale =>
          let r := closeStaleChannel st1 env stale
          (Event.progress ("deposit") 0 7 false :: r.2.1,
           { r.2.2 with channelId := none, existingChannelId := none, isDeposited := false })
        | none => ([], st1)
      let ev1 := ev0 ++ [Event.progress ("deposit") 1 7 false]
      let st3 := { st2 with hasNitroliteClient := true }
      let ev2 :=
        match env.preDrainBalance with
        | Except.error _ => ev1 ++ [Event.readCustodyBalance token]
        | Except.ok bal =>
          if 0 < bal then
            if env.preDrainWithdrawOk then
              ev1 ++ [Event.readCustodyBalance token,
                      Event.submitTx (Tx.withdraw token bal), Event.awaitReceipt]
            else ev1 ++ [Event.readCustodyBalance token]
          else ev1 ++ [Event.readCustodyBalance token]
      let ap := approveStage token st3.userAddress nw.custodyAddress
        env.allowance amountInUnits env.approveOk
      let ev3 := ev2 ++ ap.2
      match ap.1 with
      | Except.error e => (Except.error e, ev3, st3)
      | Except.ok _ =>
        let ev4 := ev3 ++ [Event.progress ("deposit") 3 7 false]
        if !env.depositOk then
          (Except.error ("deposit failed"), ev4, st3)
        else
          let ev5 := ev4 ++ [Event.submitTx (Tx.depositTx token amountInUnits),
                             Event.awaitReceipt,
                             Event.progress ("deposit") 4 7 false,
                             Event.wsSend ("create_channel")]
          if !env.createRpcOk then
            (Except.error ("create channel request failed"), ev5, st3)
          else if !env.createTxOk then
            (Except.error ("create channel transaction failed"), ev5, st3)
          else
            let ch := env.newChannelId
            let st4 := { st3 with channelId := some ch }
            let ev6 := ev5 ++ [Event.submitTx Tx.createChannelTx,
                               Event.waitFor ("channel_ready"),
                               Event.progress ("deposit") 5 7 false,
                               Event.wsSend ("resize_channel")]
            if !env.resizeRpcOk then
              (Except.error ("resize request failed"), ev6, st4)
            else if !env.resizeDataOk then
              (Except.error ("channel data read failed"), ev6, st4)
            else
              let ev7 := ev6 ++ [Event.readChannelData ch]
              if !env.resizeTxOk then
                (Except.error ("resize transaction failed"), ev7, st4)
              else
                let ev8 := ev7 ++ [Event.submitTx (Tx.resizeChannelTx ch),
                                   Event.waitFor ("resize_processed"),
                                   Event.progress ("deposit") 6 7 false,
                                   Event.wsSend ("resize_channel")]
                if !env.allocateRpcOk then
                  (Except.error ("allocate request failed"), ev8, st4)
                else if !env.allocateDataOk then
                  (Except.error ("channel data read failed"), ev8, st4)
                else
                  let ev9 := ev8 ++ [Event.readChannelData ch]
                  if !env.allocateTxOk then
                    (Except.error ("allocate transaction failed"), ev9, st4)
                  else
                    let ev10 := ev9 ++ [Event.submitTx (Tx.resizeChannelTx ch),
                                        Event.progress ("deposit") 7 7 false,
                                        Event.waitFor ("deposit_confirmed")]
                    let st5 := { st4 with isDeposited := true }
                    (Except.ok ch,
                     ev10 ++ [Event.progress ("deposit") 7 7 true], st5)

/-!
Theorems.
-/

/-- Helper: removing the key of the last entry from a pending map with
pairwise-distinct keys removes exactly the last entry. -/
theorem pendingMap_filter_ne_getLast (l : PendingMap) (last : String × PendingReq)
    (hnd : (l.map Prod.fst).Nodup) (hl : l.getLast? = some last) :
    l.filter (fun e => e.1 ≠ last.1) = l.dropLast := by
  induction l with
  | nil => simp at hl
  | cons x xs ih =>
    cases xs with
    | nil =>
      simp only [List.getLast?_singleton, Option.some.injEq] at hl
      subst hl
      simp
    | cons y ys =>
      have hl2 : (y :: ys).getLast? = some last := hl
      have hmem : last ∈ y :: ys := List.mem_of_mem_getLast? hl2
      have hnd2 : ((y :: ys).map Prod.fst).Nodup := (List.nodup_cons.mp hnd).2
      have hx : ¬ x.1 = last.1 := by
        intro hEq
        exact (List.nodup_cons.mp hnd).1
          (hEq ▸ List.mem_map_of_mem Prod.fst hmem)
      have : (x :: y :: ys).dropLast = x :: (y :: ys).dropLast := rfl
      rw [this, ← ih hnd2 hl2]
      simp [List.filter_cons, hx]

/-- Claim C1, counterexample: with two pending entries, registered in the
order get_config then close_channel, an inbound Error matching no pending
kind is attributed to close_channel — the newest entry — not to the oldest
entry get_config as the claim states. -/
theorem C1_oldest_counterexample :
    (handleMessage errorMethod (some ("boom"))
        [(("get_config"), ⟨1⟩), (("close_channel"), ⟨2⟩)]).outcome =
      Dispatch.rejectedPending ("close_channel") ("boom") ∧
    ¬ (handleMessage errorMethod (some ("boom"))
        [(("get_config"), ⟨1⟩), (("close_channel"), ⟨2⟩)]).outcome =
      Dispatch.rejectedPending ("get_config") ("boom") := by
  constructor
  · rfl
  · decide

/-- Claim C1, amended: for every non-empty pending-request map (with its
pairwise-distinct kinds), when an inbound Error message arrives that matches
no pending kind, the error is attributed to the NEWEST pending entry (the
most recently registered one): that entry is rejected with the reported
reason, its timeout is cleared, and the entry is removed from the map. -/
theorem C1_error_routed_to_newest (pending : PendingMap)
    (last : String × PendingReq) (reason : String)
    (hnd : (pending.map Prod.fst).Nodup)
    (hlast : pending.getLast? = some last)
    (hnok : (pending.lookup errorMethod).isSome = false) :
    (handleMessage errorMethod (some reason) pending).outcome =
        Dispatch.rejectedPending last.1 reason ∧
    (handleMessage errorMethod (some reason) pending).clearedTimers =
        [last.2.timer] ∧
    (handleMessage errorMethod (some reason) pending).pendingAfter =
        pending.dropLast := by
  have hnone : (pending.lookup errorMethod).isSome = false := hnok
  unfold handleMessage
  rw [hnone, hlast]
  simp only [Bool.false_eq_true, if_false, if_pos rfl]
  refine ⟨rfl, rfl, ?_⟩
  exact pendingMap_filter_ne_getLast pending last hnd hlast

/-- Claim C10: without an on-chain action client, closeChannelAndWithdraw
returns null immediately without throwing, emits no event (no progress, no
error), sends nothing, submits no transaction, and leaves the state
unchanged, even when a channel id is recorded. -/
theorem C10_close_without_client (st : ServiceState) (env : CloseEnv)
    (hnc : st.hasNitroliteClient = false) :
    closeChannelAndWithdraw st env = (Except.ok none, [], st) := by
  unfold closeChannelAndWithdraw
  rw [hnc]
  rfl

/-- Witness for C10_close_without_client: a state with a recorded channel id
but no client. -/
theorem C10_close_without_client_witness :
    closeChannelAndWithdraw
      { connected := true, authenticated := true, hasPublicClient := true,
        userAddress := ("0xUser"), networks := [], brokerAddress := none,
        channelId := some ("0xChan"), existingChannelId := none,
        isDeposited := true, hasNitroliteClient := false,
        tokenAddress := some ("0xToken") }
      ⟨true, true, ("h1"), Except.ok 7, true, ("h2")⟩ =
      (Except.ok none, [],
       { connected := true, authenticated := true, hasPublicClient := true,
         userAddress := ("0xUser"), networks := [], brokerAddress := none,
         channelId := some ("0xChan"), existingChannelId := none,
         isDeposited := true, hasNitroliteClient := false,
         tokenAddress := some ("0xToken") }) :=
  C10_close_without_client _ _ rfl

/-- Claim C3: for every chainId absent from the fetched configuration,
depositAndOpenChannel fails with the chain-unsupported error before any stage
runs: the event log is empty (so zero transactions of any kind were
submitted) and the state, in particular the channel and deposit tracking, is
unchanged. -/
theorem C3_chain_unsupported (st : ServiceState) (env : DepositEnv)
    (amountInUnits chainId : ℕ) (token : String)
    (hconn : st.connected = true) (hauth : st.authenticated = true)
    (hpc : st.hasPublicClient = true)
    (habsent : findNetworkForChain st chainId = none) :
    depositAndOpenChannel st env amountInUnits chainId token =
      (Except.error chainUnsupportedError, [], st) := by
  unfold depositAndOpenChannel
  rw [hconn, hauth, hpc, habsent]
  rfl

/-- Oracle environment used by the deposit-flow witnesses. -/
def witnessDepositEnv : DepositEnv :=
  { staleCloseRpcOk := true, staleCloseTxOk := true,
    staleCustodyBalance := Except.ok 0, staleWithdrawOk := true,
    preDrainBalance := Except.ok 0, preDrainWithdrawOk := true,
    allowance := 0, approveOk := true, depositOk := true,
    createRpcOk := true, createTxOk := true, newChannelId := ("0xNew"),
    resizeRpcOk := true, resizeDataOk := true, resizeTxOk := true,
    allocateRpcOk := true, allocateDataOk := true, allocateTxOk := true }

/-- Service state used by the flow witnesses: connected, authenticated, with
one supported network (chain 8453). -/
def witnessServiceState : ServiceState :=
  { connected := true, authenticated := true, hasPublicClient := true,
    userAddress := ("0xUser"),
    networks := [⟨8453, ("0xCustody"), ("0xAdjudicator")⟩],
    brokerAddress := some ("0xBroker"), channelId := none,
    existingChannelId := none, isDeposited := false,
    hasNitroliteClient := false, tokenAddress := none }

/-- Witness for C3_chain_unsupported: chain 1 is not in the configuration. -/
theorem C3_chain_unsupported_witness :
    depositAndOpenChannel witnessServiceState witnessDepositEnv 5000000 1 ("0xToken") =
      (Except.error chainUnsupportedError, [], witnessServiceState) :=
  C3_chain_unsupported witnessServiceState witnessDepositEnv 5000000 1 ("0xToken")
    rfl rfl rfl (by decide)

/-- Claim C9: when the sendTip precondition checks pass but building or
sending the off-chain transfer message throws, the call still applies the
optimistic ledger update (spent increases by the amount, the balance
decreases by it), no transfer message reaches the node, and the call returns
success — the send failure never surfaces to the caller. -/
theorem C9_send_failure_swallowed (st : TipState) (s : StreamSession) (c : TipCall)
    (hs : st.activeStreamSession = some s)
    (hstreamer : s.streamerAddress = c.streamer)
    (hpos : 0 < c.amount) (hle : c.amount ≤ s.currentBalance)
    (hsig : st.hasSessionSigner = true) (hconn : st.connected = true)
    (hauth : st.authenticated = true) (hfail : c.sendFails = true) :
    (sendTip st c).1 = TipOutcome.ok (s.currentBalance - c.amount) (s.spent + c.amount) ∧
    ((sendTip st c).2.1).activeStreamSession =
      some ({ s with spent := s.spent + c.amount,
                     currentBalance := s.currentBalance - c.amount }) ∧
    (sendTip st c).2.2 = [] := by
  have h1 : ¬ s.streamerAddress ≠ c.streamer := by simp [hstreamer]
  have h2 : ¬ c.amount ≤ 0 := not_le.mpr hpos
  have h3 : ¬ s.currentBalance < c.amount := not_lt.mpr hle
  simp [sendTip, hs, h1, h2, h3, hsig, hconn, hauth, hfail]

/-- Witness for C9_send_failure_swallowed at a concrete session. -/
theorem C9_send_failure_swallowed_witness :
    (sendTip ⟨some (createStreamSession ("0xStreamer") 10 10), true, true, true⟩
        ⟨4, ("0xStreamer"), true⟩).1 = TipOutcome.ok (10 - 4) (0 + 4) ∧
    ((sendTip ⟨some (createStreamSession ("0xStreamer") 10 10), true, true, true⟩
        ⟨4, ("0xStreamer"), true⟩).2.1).activeStreamSession =
      some ({ createStreamSession ("0xStreamer") 10 10 with
                spent := 0 + 4, currentBalance := 10 - 4 }) ∧
    (sendTip ⟨some (createStreamSession ("0xStreamer") 10 10), true, true, true⟩
        ⟨4, ("0xStreamer"), true⟩).2.2 = [] :=
  C9_send_failure_swallowed
    ⟨some (createStreamSession ("0xStreamer") 10 10), true, true, true⟩
    (createStreamSession ("0xStreamer") 10 10) ⟨4, ("0xStreamer"), true⟩
    rfl rfl (by norm_num) (by norm_num [createStreamSession]) rfl rfl rfl rfl

/-- Helper: one sendTip call preserves the ledger invariant and never
decreases the spent amount. -/
theorem sendTip_preserves (B : ℚ) (st : TipState) (c : TipCall)
    (h : LedgerInv B st) :
    LedgerInv B (sendTip st c).2.1 ∧ spentOf st ≤ spentOf (sendTip st c).2.1 := by
  obtain ⟨s, hs, hB, hsp, hcb, hsum⟩ := h
  have hL : spentOf st = s.spent := by simp [spentOf, hs]
  simp only [sendTip, hs]
  split_ifs with h1 h2 h3 h4 h5
  · exact ⟨⟨s, hs, hB, hsp, hcb, hsum⟩, le_refl _⟩
  · exact ⟨⟨s, hs, hB, hsp, hcb, hsum⟩, le_refl _⟩
  · exact ⟨⟨s, hs, hB, hsp, hcb, hsum⟩, le_refl _⟩
  all_goals
    (push_neg at h2 h3;
     refine ⟨⟨_, rfl, hB, add_nonneg hsp h2.le,
       by simpa using sub_nonneg.mpr h3,
       by show s.spent + c.amount + (s.currentBalance - c.amount) = B; linarith⟩,
       by rw [hL]; show s.spent ≤ s.spent + c.amount; linarith⟩)

/-- Helper: running a list of sendTip calls preserves the ledger invariant. -/
theorem runTips_inv (B : ℚ) (st : TipState) (calls : List TipCall)
    (h : LedgerInv B st) : LedgerInv B (runTips st calls) := by
  induction calls generalizing st with
  | nil => exact h
  | cons c cs ih => exact ih _ (sendTip_preserves B st c h).1

/-- Helper: the invariant bounds the spent amount by the opening budget. -/
theorem spentOf_le_of_inv (B : ℚ) (st : TipState) (h : LedgerInv B st) :
    spentOf st ≤ B := by
  obtain ⟨s, hs, hB, hsp, hcb, hsum⟩ := h
  have hL : spentOf st = s.spent := by simp [spentOf, hs]
  rw [hL]
  linarith

/-- Helper: running the calls with one more at the end is one sendTip step
after running the prefix. -/
theorem runTips_append (st : TipState) (calls : List TipCall) (c : TipCall) :
    runTips st (calls ++ [c]) = (sendTip (runTips st calls) c).2.1 := by
  induction calls generalizing st with
  | nil => rfl
  | cons d ds ih => exact ih _

/-- Helper: a rejected sendTip call leaves the state unchanged and sends no
transfer message. -/
theorem sendTip_rejected_frame (st : TipState) (c : TipCall) (r : String)
    (h : (sendTip st c).1 = TipOutcome.rejected r) :
    (sendTip st c).2.1 = st ∧ (sendTip st c).2.2 = [] := by
  unfold sendTip at h ⊢
  cases hs : st.activeStreamSession with
  | none => simp [hs]
  | some s =>
    by_cases h1 : s.streamerAddress ≠ c.streamer
    · simp [h1]
    · by_cases h2 : c.amount ≤ 0
      · simp [h1, h2]
      · by_cases h3 : s.currentBalance < c.amount
        · simp [h1, h2, h3]
        · simp [hs, h1, h2, h3] at h

/-- Helper: a call with no active session, a non-positive amount, or an
amount above the remaining balance is rejected. -/
theorem sendTip_reject_conditions (st : TipState) (c : TipCall)
    (h : st.activeStreamSession = none ∨ c.amount ≤ 0 ∨ remainingOf st < c.amount) :
    ∃ r, (sendTip st c).1 = TipOutcome.rejected r := by
  unfold sendTip
  cases hs : st.activeStreamSession with
  | none => exact ⟨_, rfl⟩
  | some s =>
    by_cases h1 : s.streamerAddress ≠ c.streamer
    · exact ⟨("Active session is with a different streamer"), by simp [h1]⟩
    · by_cases h2 : c.amount ≤ 0
      · exact ⟨("Tip amount must be greater than 0"), by simp [h1, h2]⟩
      · have h3 : s.currentBalance < c.amount := by
          rcases h with hn | ha | hr
          · rw [hs] at hn; exact absurd hn (by simp)
          · exact absurd ha h2
          · simpa [remainingOf, hs] using hr
        exact ⟨("Insufficient balance"), by simp [h1, h2, h3]⟩

/-- Claim C2: for every session opened with a non-negative budget B and every
sequence of sendTip calls, the spent amount stays at most B after every call
and never decreases from one call to the next; any call with a non-positive
amount, with no active session, or with an amount above the remaining
balance is rejected, leaves the ledger unchanged, and sends no transfer
message to the remote node. -/
theorem C2_session_ledger (B rate : ℚ) (streamer : String)
    (sig conn auth : Bool) (hB : 0 ≤ B) (calls : List TipCall) (c : TipCall) :
    spentOf (runTips ⟨some (createStreamSession streamer B rate), sig, conn, auth⟩ calls) ≤ B ∧
    spentOf (runTips ⟨some (createStreamSession streamer B rate), sig, conn, auth⟩ calls) ≤
      spentOf (runTips ⟨some (createStreamSession streamer B rate), sig, conn, auth⟩ (calls ++ [c])) ∧
    (∀ r, (sendTip (runTips ⟨some (createStreamSession streamer B rate), sig, conn, auth⟩ calls) c).1 =
          TipOutcome.rejected r →
        (sendTip (runTips ⟨some (createStreamSession streamer B rate), sig, conn, auth⟩ calls) c).2.1 =
          runTips ⟨some (createStreamSession streamer B rate), sig, conn, auth⟩ calls ∧
        (sendTip (runTips ⟨some (createStreamSession streamer B rate), sig, conn, auth⟩ calls) c).2.2 = []) ∧
    ((c.amount ≤ 0 ∨
      (runTips ⟨some (createStreamSession streamer B rate), sig, conn, auth⟩ calls).activeStreamSession = none ∨
      remainingOf (runTips ⟨some (createStreamSession streamer B rate), sig, conn, auth⟩ calls) < c.amount) →
      ∃ r, (sendTip (runTips ⟨some (createStreamSession streamer B rate), sig, conn, auth⟩ calls) c).1 =
        TipOutcome.rejected r) := by
  have h0 : LedgerInv B ⟨some (createStreamSession streamer B rate), sig, conn, auth⟩ :=
    ⟨_, rfl, rfl, le_refl 0, hB, by simp [createStreamSession]⟩
  have hinv := runTips_inv B _ calls h0
  refine ⟨spentOf_le_of_inv B _ hinv, ?_, ?_, ?_⟩
  · rw [runTips_append]
    exact (sendTip_preserves B _ c hinv).2
  · intro r hr
    exact sendTip_rejected_frame _ c r hr
  · intro hcond
    refine sendTip_reject_conditions _ c ?_
    rcases hcond with ha | hn | hr
    · exact Or.inr (Or.inl ha)
    · exact Or.inl hn
    · exact Or.inr (Or.inr hr)

/-- Witness for C2_session_ledger: a budget of 10 with one successful tip of
4 and then an attempted tip of 100, which exceeds the remaining balance. -/
theorem C2_session_ledger_witness :
    spentOf (runTips ⟨some (createStreamSession ("0xS") 10 10), true, true, true⟩
      [⟨4, ("0xS"), false⟩]) ≤ 10 ∧
    spentOf (runTips ⟨some (createStreamSession ("0xS") 10 10), true, true, true⟩
      [⟨4, ("0xS"), false⟩]) ≤
      spentOf (runTips ⟨some (createStreamSession ("0xS") 10 10), true, true, true⟩
        ([⟨4, ("0xS"), false⟩] ++ [⟨100, ("0xS"), false⟩])) :=
  ⟨(C2_session_ledger 10 10 ("0xS") true true true (by norm_num)
      [⟨4, ("0xS"), false⟩] ⟨100, ("0xS"), false⟩).1,
   (C2_session_ledger 10 10 ("0xS") true true true (by norm_num)
      [⟨4, ("0xS"), false⟩] ⟨100, ("0xS"), false⟩).2.1⟩

/-- The concrete action sequence of six consecutive reconnect invocations
from a fresh connection: five scheduled attempts, then the terminal error. -/
def baseReconnTrace : List ReconnAction :=
  [ReconnAction.schedule 1 2000, ReconnAction.schedule 2 4000,
   ReconnAction.schedule 3 8000, ReconnAction.schedule 4 16000,
   ReconnAction.schedule 5 30000, ReconnAction.terminalError]

/-- Helper: splitting the reconnect trace at an intermediate step count. -/
theorem reconnTrace_add (st : ReconnState) (m k : ℕ) :
    reconnTrace st (m + k) = reconnTrace st m ++ reconnTrace (reconnRun st m) k := by
  induction m generalizing st with
  | zero =>
    rw [Nat.zero_add]
    rfl
  | succ m ih =>
    have h1 : m + 1 + k = (m + k) + 1 := by omega
    rw [h1]
    show (attemptReconnect st).1 :: reconnTrace (attemptReconnect st).2 (m + k) = _
    rw [ih]
    rfl

/-- Helper: once the maximum is reached, every further invocation emits the
terminal error and changes nothing. -/
theorem reconnTrace_stuck (k : ℕ) :
    reconnTrace ⟨5, 5⟩ k = List.replicate k ReconnAction.terminalError := by
  induction k with
  | zero => rfl
  | succ k ih =>
    show ReconnAction.terminalError :: reconnTrace ⟨5, 5⟩ k = _
    rw [ih]
    rfl

/-- Helper: closed form of the reconnect trace from a fresh connection. -/
theorem reconnTrace_closed (n : ℕ) :
    reconnTrace initialReconnState n =
      baseReconnTrace.take n ++ List.replicate (n - 6) ReconnAction.terminalError := by
  rcases le_or_lt n 6 with h | h
  · have h0 : n - 6 = 0 := by omega
    rw [h0]
    interval_cases n <;> rfl
  · obtain ⟨m, rfl⟩ : ∃ m, n = 6 + m := ⟨n - 6, by omega⟩
    rw [reconnTrace_add]
    have h2 : reconnTrace initialReconnState 6 = baseReconnTrace := rfl
    have h3 : reconnRun initialReconnState 6 = ⟨5, 5⟩ := rfl
    rw [h2, h3, reconnTrace_stuck]
    have h4 : baseReconnTrace.take (6 + m) = baseReconnTrace :=
      List.take_of_length_le (by simp [baseReconnTrace])
    have h5 : 6 + m - 6 = m := by omega
    rw [h4, h5]

/-- Helper: the terminal error contributes no scheduled delay. -/
theorem scheduledDelays_replicate (k : ℕ) :
    scheduledDelays (List.replicate k ReconnAction.terminalError) = [] := by
  induction k with
  | zero => rfl
  | succ k ih =>
    rw [List.replicate_succ]
    exact ih

/-- Claim C5: along any number n of consecutive reconnect invocations after a
connection close, every scheduled attempt k has delay exactly
min(1000 * 2 ^ k, 30000) ms with 1 ≤ k ≤ 5 and delay at most 30000 ms; the
scheduled delays are non-decreasing; at most 5 reconnect attempts are
scheduled; nothing after the fifth invocation is ever a scheduled attempt;
and once a sixth invocation happens the terminal error has been emitted. -/
theorem C5_reconnect_backoff (n : ℕ) :
    (∀ k d, ReconnAction.schedule k d ∈ reconnTrace initialReconnState n →
        d = min (1000 * 2 ^ k) 30000 ∧ 1 ≤ k ∧ k ≤ 5 ∧ d ≤ 30000) ∧
    List.Pairwise (· ≤ ·) (scheduledDelays (reconnTrace initialReconnState n)) ∧
    (reconnTrace initialReconnState n).countP isSchedule ≤ 5 ∧
    (∀ a ∈ (reconnTrace initialReconnState n).drop 5, a = ReconnAction.terminalError) ∧
    (6 ≤ n → ReconnAction.terminalError ∈ reconnTrace initialReconnState n) := by
  rw [reconnTrace_closed]
  refine ⟨?_, ?_, ?_, ?_, ?_⟩
  · intro k d hmem
    rcases List.mem_append.mp hmem with hm | hm
    · have hb : ReconnAction.schedule k d ∈ baseReconnTrace := List.mem_of_mem_take hm
      simp only [baseReconnTrace, List.mem_cons, List.not_mem_nil, or_false] at hb
      rcases hb with h | h | h | h | h | h <;>
        first
          | exact ReconnAction.noConfusion h
          | (injection h with hk hd; subst hk; subst hd;
             exact ⟨by decide, by decide, by decide, by decide⟩)
    · exact ReconnAction.noConfusion (List.eq_of_mem_replicate hm)
  · have h1 : scheduledDelays (baseReconnTrace.take n ++
        List.replicate (n - 6) ReconnAction.terminalError) =
        scheduledDelays (baseReconnTrace.take n) ++
        scheduledDelays (List.replicate (n - 6) ReconnAction.terminalError) := by
      simp [scheduledDelays, List.filterMap_append]
    rw [h1, scheduledDelays_replicate, List.append_nil]
    have hsub : (scheduledDelays (baseReconnTrace.take n)).Sublist
        (scheduledDelays baseReconnTrace) :=
      List.Sublist.filterMap _ (List.take_sublist n baseReconnTrace)
    exact List.Pairwise.sublist hsub (by decide)
  · rw [List.countP_append]
    have h2 : (List.replicate (n - 6) ReconnAction.terminalError).countP isSchedule = 0 :=
      List.countP_eq_zero.mpr (by
        intro a ha
        rw [List.eq_of_mem_replicate ha]
        decide)
    rw [h2, Nat.add_zero]
    calc (baseReconnTrace.take n).countP isSchedule
        ≤ baseReconnTrace.countP isSchedule :=
          List.Sublist.countP_le _ (List.take_sublist n baseReconnTrace)
      _ ≤ 5 := by decide
  · intro a ha
    rcases le_or_lt n 6 with h | h
    · have h0 : n - 6 = 0 := by omega
      rw [h0] at ha
      interval_cases n <;> simp_all [baseReconnTrace]
    · obtain ⟨m, rfl⟩ : ∃ m, n = 6 + m := ⟨n - 6, by omega⟩
      have h4 : baseReconnTrace.take (6 + m) = baseReconnTrace :=
        List.take_of_length_le (by simp [baseReconnTrace])
      rw [h4] at ha
      have h5 : (baseReconnTrace ++
          List.replicate (6 + m - 6) ReconnAction.terminalError).drop 5 =
          ReconnAction.terminalError ::
          List.replicate (6 + m - 6) ReconnAction.terminalError := rfl
      rw [h5] at ha
      rcases List.mem_cons.mp ha with h | h
      · exact h
      · exact List.eq_of_mem_replicate h
  · intro h6
    have h4 : baseReconnTrace.take n = baseReconnTrace :=
      List.take_of_length_le (by simp [baseReconnTrace]; omega)
    rw [h4]
    exact List.mem_append_left _ (by decide)

/-- Witness for C5_reconnect_backoff at seven invocations. -/
theorem C5_reconnect_backoff_witness :
    ReconnAction.terminalError ∈ reconnTrace initialReconnState 7 ∧
    (reconnTrace initialReconnState 7).countP isSchedule ≤ 5 :=
  ⟨(C5_reconnect_backoff 7).2.2.2.2 (by decide), (C5_reconnect_backoff 7).2.2.1⟩

/-- Cleanliness of the handshake machine: once the promise has settled, the
timer is cleared and both temporary listeners are deregistered. -/
def AuthClean (st : AuthMachine) : Prop :=
  st.settled.isSome = true →
    st.timerActive = false ∧ st.msgListener = false ∧ st.closeListener = false

/-- Helper: a settlement that went through the cleanup helper is clean. -/
theorem authClean_settle (st : AuthMachine) (r : Except String Unit) :
    AuthClean (authSettle (authCleanup st) r) :=
  fun _ => ⟨rfl, rfl, rfl⟩

/-- Helper: the handshake start is clean. -/
theorem authStart_clean (sendOk : Bool) : AuthClean (authStart sendOk) := by
  cases sendOk with
  | false => exact fun _ => ⟨rfl, rfl, rfl⟩
  | true =>
    intro h
    simp [authStart] at h

/-- Helper: every handshake event preserves cleanliness. -/
theorem authStep_clean (st : AuthMachine) (e : AuthEvent) (h : AuthClean st) :
    AuthClean (authStep st e) := by
  cases e with
  | timeout =>
    simp only [authStep]
    split_ifs with h1
    · exact authClean_settle st _
    · exact h
  | connClosed =>
    simp only [authStep]
    split_ifs with h1
    · exact authClean_settle st _
    · exact h
  | challenge signOk =>
    simp only [authStep]
    split_ifs with h1 h2
    · exact h
    · exact authClean_settle st _
    · exact h
  | verifyResult success =>
    simp only [authStep]
    split_ifs with h1 h2
    · exact authClean_settle st _
    · exact h
    · exact h
  | errorResponse reason =>
    simp only [authStep]
    split_ifs with h1
    · exact authClean_settle st _
    · exact h

/-- Helper: cleanliness is preserved along any event sequence. -/
theorem authRun_clean (st : AuthMachine) (events : List AuthEvent)
    (h : AuthClean st) : AuthClean (authRun st events) := by
  induction events generalizing st with
  | nil => exact h
  | cons e es ih => exact ih _ (authStep_clean st e h)

/-- Claim C8: on every exit path of the authentication handshake — success,
an explicit error response from the node, signer rejection on the challenge,
the 30 s timeout, connection loss mid-handshake, or failure to send the
initial request — by the time the handshake promise settles the timeout timer
is cleared and both temporary listeners are deregistered, whatever sequence
of events reached that exit. -/
theorem C8_no_handler_leak (sendOk : Bool) (events : List AuthEvent)
    (hsettled : (authRun (authStart sendOk) events).settled.isSome = true) :
    (authRun (authStart sendOk) events).timerActive = false ∧
    (authRun (authStart sendOk) events).msgListener = false ∧
    (authRun (authStart sendOk) events).closeListener = false :=
  authRun_clean (authStart sendOk) events (authStart_clean sendOk) hsettled

/-- Witness for C8_no_handler_leak on the successful handshake path. -/
theorem C8_no_handler_leak_witness :
    (authRun (authStart true)
      [AuthEvent.challenge true, AuthEvent.verifyResult true]).settled.isSome = true ∧
    (authRun (authStart true)
      [AuthEvent.challenge true, AuthEvent.verifyResult true]).timerActive = false ∧
    (authRun (authStart true)
      [AuthEvent.challenge true, AuthEvent.verifyResult true]).msgListener = false ∧
    (authRun (authStart true)
      [AuthEvent.challenge true, AuthEvent.verifyResult true]).closeListener = false :=
  ⟨rfl, C8_no_handler_leak true
    [AuthEvent.challenge true, AuthEvent.verifyResult true] rfl⟩

/-- Claim C4: deepCleanup invoked while connected and authenticated on a
supported chain, with no channel id tracked (neither current nor previously
observed) and a zero custodial balance, returns the summary with no channel
closed, a zero drain, and no error, and its event log contains no submitted
transaction. -/
theorem C4_cleanup_idempotent (st : ServiceState) (env : CleanupEnv)
    (chainId : ℕ) (token : String) (nw : Network)
    (hconn : st.connected = true) (hauth : st.authenticated = true)
    (hpc : st.hasPublicClient = true)
    (hnet : findNetworkForChain st chainId = some nw)
    (hch : st.channelId = none) (hech : st.existingChannelId = none)
    (hbal : env.custodyBalance = Except.ok 0) :
    (deepCleanup st env chainId token).1 =
      Except.ok { channelsClosed := [], custodyDrained := some (0, none),
                  ledgerBalance := none, errors := [] } ∧
    ∀ tx, Event.submitTx tx ∉ (deepCleanup st env chainId token).2.1 := by
  constructor
  · simp [deepCleanup, hconn, hauth, hpc, hnet, hch, hech, hbal, cleanupCloseAll]
  · intro tx
    by_cases hq : env.ledgerQueryOk
    · simp [deepCleanup, hconn, hauth, hpc, hnet, hch, hech, hbal,
        cleanupCloseAll, hq]
    · simp [deepCleanup, hconn, hauth, hpc, hnet, hch, hech, hbal,
        cleanupCloseAll, hq]

/-- Oracle environment used by the cleanup witness: every call succeeds and
the custodial balance reads zero. -/
def witnessCleanupEnv : CleanupEnv :=
  { closeRpcOk := fun _ => true, closeTxOk := fun _ => true,
    closeTxHash := fun _ => ("0xhash"), custodyBalance := Except.ok 0,
    withdrawOk := true, withdrawTxHash := ("0xhash"), ledgerQueryOk := true }

/-- Witness for C4_cleanup_idempotent on the concrete idle state. -/
theorem C4_cleanup_idempotent_witness :
    (deepCleanup witnessServiceState witnessCleanupEnv 8453 ("0xToken")).1 =
      Except.ok { channelsClosed := [], custodyDrained := some (0, none),
                  ledgerBalance := none, errors := [] } ∧
    ∀ tx, Event.submitTx tx ∉
      (deepCleanup witnessServiceState witnessCleanupEnv 8453 ("0xToken")).2.1 :=
  C4_cleanup_idempotent witnessServiceState witnessCleanupEnv 8453 ("0xToken")
    ⟨8453, ("0xCustody"), ("0xAdjudicator")⟩ rfl rfl rfl (by decide) rfl rfl rfl

/-- Claim C6: with an on-chain action client present and the external calls
succeeding, closeChannelAndWithdraw skips the close sub-stage entirely when
no channel id is recorded (no close request, no close transaction, only the
custody-balance check); and for a recorded channel id it sends the close
request and submits the on-chain close, followed by a withdrawal transaction
exactly when the remaining custodial balance is nonzero. -/
theorem C6_close_then_withdraw (st : ServiceState) (env : CloseEnv) (bal : ℕ)
    (hcl : st.hasNitroliteClient = true)
    (hrpc : env.closeRpcOk = true) (htx : env.closeTxOk = true)
    (hw : env.withdrawOk = true)
    (hbal : env.custodyBalanceRead = Except.ok bal) :
    (st.channelId = none →
        (∀ ch, Event.submitTx (Tx.closeChannelTx ch) ∉
            (closeChannelAndWithdraw st env).2.1) ∧
        Event.wsSend ("close_channel") ∉ (closeChannelAndWithdraw st env).2.1 ∧
        Event.readCustodyBalance (st.tokenAddress.getD ("")) ∈
          (closeChannelAndWithdraw st env).2.1) ∧
    (∀ ch, st.channelId = some ch →
        Event.wsSend ("close_channel") ∈ (closeChannelAndWithdraw st env).2.1 ∧
        Event.submitTx (Tx.closeChannelTx ch) ∈ (closeChannelAndWithdraw st env).2.1 ∧
        ((∃ a, Event.submitTx (Tx.withdraw (st.tokenAddress.getD ("")) a) ∈
            (closeChannelAndWithdraw st env).2.1) ↔ 0 < bal)) := by
  constructor
  · intro hnone
    by_cases hbpos : 0 < bal
    · refine ⟨?_, ?_, ?_⟩ <;>
        simp [closeChannelAndWithdraw, closeWithdrawPhase, hcl, hnone, hbal,
          hbpos, hw]
    · refine ⟨?_, ?_, ?_⟩ <;>
        simp [closeChannelAndWithdraw, closeWithdrawPhase, hcl, hnone, hbal,
          hbpos, hw]
  · intro ch hch
    refine ⟨?_, ?_, ?_⟩
    · by_cases hbpos : 0 < bal <;>
        simp [closeChannelAndWithdraw, closeWithdrawPhase, hcl, hch, hrpc, htx,
          hbal, hw, hbpos]
    · by_cases hbpos : 0 < bal <;>
        simp [closeChannelAndWithdraw, closeWithdrawPhase, hcl, hch, hrpc, htx,
          hbal, hw, hbpos]
    · by_cases hbpos : 0 < bal
      · refine ⟨fun _ => hbpos, fun _ => ⟨bal, ?_⟩⟩
        simp [closeChannelAndWithdraw, closeWithdrawPhase, hcl, hch, hrpc, htx,
          hbal, hw, hbpos]
      · constructor
        · rintro ⟨a, hmem⟩
          simp [closeChannelAndWithdraw, closeWithdrawPhase, hcl, hch, hrpc, htx,
            hbal, hw, hbpos] at hmem
        · intro hb
          exact absurd hb hbpos

/-- Service state used by the close-flow witness: client present, channel
recorded, token tracked. -/
def witnessCloseState : ServiceState :=
  { connected := true, authenticated := true, hasPublicClient := true,
    userAddress := ("0xUser"),
    networks := [⟨8453, ("0xCustody"), ("0xAdjudicator")⟩],
    brokerAddress := some ("0xBroker"), channelId := some ("0xChan"),
    existingChannelId := none, isDeposited := true,
    hasNitroliteClient := true, tokenAddress := some ("0xToken") }

/-- Witness for C6_close_then_withdraw: a recorded channel and a custodial
balance of 3 produce the close followed by a withdrawal. -/
theorem C6_close_then_withdraw_witness :
    Event.wsSend ("close_channel") ∈
      (closeChannelAndWithdraw witnessCloseState
        ⟨true, true, ("h1"), Except.ok 3, true, ("h2")⟩).2.1 ∧
    (∃ a, Event.submitTx (Tx.withdraw ("0xToken") a) ∈
      (closeChannelAndWithdraw witnessCloseState
        ⟨true, true, ("h1"), Except.ok 3, true, ("h2")⟩).2.1) :=
  ⟨((C6_close_then_withdraw witnessCloseState
      ⟨true, true, ("h1"), Except.ok 3, true, ("h2")⟩ 3
      rfl rfl rfl rfl rfl).2 ("0xChan") rfl).1,
   ((C6_close_then_withdraw witnessCloseState
      ⟨true, true, ("h1"), Except.ok 3, true, ("h2")⟩ 3
      rfl rfl rfl rfl rfl).2 ("0xChan") rfl).2.2.mpr (by norm_num)⟩

/-- Claim C7: in the approve stage of the deposit flow, the token allowance
granted to the custody address is read before any transaction of the stage;
an approve transaction is submitted and its confirmation awaited exactly when
the allowance is below the deposit amount; and when the allowance already
covers the amount the stage submits no transaction at all. -/
theorem C7_approve_stage (token owner custody : String)
    (allowance amt : ℕ) (ok : Bool) :
    (∃ pre suf, (approveStage token owner custody allowance amt ok).2 =
        pre ++ Event.readAllowance token owner custody :: suf ∧
        ∀ tx, Event.submitTx tx ∉ pre) ∧
    ((Event.submitTx (Tx.approve token custody amt) ∈
        (approveStage token owner custody allowance amt true).2 ∧
      Event.awaitReceipt ∈ (approveStage token owner custody allowance amt true).2) ↔
      allowance < amt) ∧
    (amt ≤ allowance →
      ∀ tx, Event.submitTx tx ∉ (approveStage token owner custody allowance amt ok).2) := by
  refine ⟨?_, ?_, ?_⟩
  · by_cases hlt : allowance < amt
    · cases ok with
      | true =>
        exact ⟨[Event.progress ("deposit") 2 7 false],
          [Event.progress ("deposit") 2 7 false,
           Event.submitTx (Tx.approve token custody amt), Event.awaitReceipt],
          by simp [approveStage, hlt], by simp⟩
      | false =>
        exact ⟨[Event.progress ("deposit") 2 7 false],
          [Event.progress ("deposit") 2 7 false],
          by simp [approveStage, hlt], by simp⟩
    · exact ⟨[Event.progress ("deposit") 2 7 false], [],
        by simp [approveStage, hlt], by simp⟩
  · by_cases hlt : allowance < amt
    · exact ⟨fun _ => hlt,
        fun _ => ⟨by simp [approveStage, hlt], by simp [approveStage, hlt]⟩⟩
    · constructor
      · rintro ⟨hmem, _⟩
        simp [approveStage, hlt] at hmem
      · intro h
        exact absurd h hlt
  · intro hle tx
    have hlt : ¬ allowance < amt := not_lt.mpr hle
    cases ok <;> simp [approveStage, hlt]

/-- Witness for C7_approve_stage: a sufficient allowance of 10 against a
deposit of 5 yields a stage with no deposit-like transaction. -/
theorem C7_approve_stage_witness :
    Event.submitTx (Tx.depositTx ("0xToken") 5) ∉
      (approveStage ("0xToken") ("0xUser") ("0xCustody") 10 5 true).2 :=
  (C7_approve_stage ("0xToken") ("0xUser") ("0xCustody") 10 5 true).2.2
    (by norm_num) (Tx.depositTx ("0xToken") 5)

/-- Witness for C1_error_routed_to_newest at a concrete two-entry map. -/
theorem C1_error_routed_to_newest_witness :
    (handleMessage errorMethod (some ("boom"))
        [(("get_config"), ⟨1⟩), (("close_channel"), ⟨2⟩)]).outcome =
      Dispatch.rejectedPending ("close_channel") ("boom") ∧
    (handleMessage errorMethod (some ("boom"))
        [(("get_config"), ⟨1⟩), (("close_channel"), ⟨2⟩)]).clearedTimers = [2] ∧
    (handleMessage errorMethod (some ("boom"))
        [(("get_config"), ⟨1⟩), (("close_channel"), ⟨2⟩)]).pendingAfter =
      [(("get_config"), ⟨1⟩)] :=
  C1_error_routed_to_newest
    [(("get_config"), ⟨1⟩), (("close_channel"), ⟨2⟩)]
    (("close_channel"), ⟨2⟩) ("boom") (by decide) (by decide) (by decide)

end YellowTok
